import Mathlib

/-!
Verification development for the acoustic-customer-journey workflow engine.

The definitions below are a shallow embedding of the TypeScript sources:
`src/models/customer.ts`, `src/services/workflowEngine.ts`,
`src/services/eventService.ts`, `src/services/emailService.ts`,
`src/services/customerService.ts` and `src/validation/customerValidator.ts`.

Modelling conventions:
* JavaScript `Map` objects are embedded as association lists with the exact
  `Map.set` / `Map.delete` / `Map.get` semantics (set replaces in place,
  otherwise appends; delete removes the entry).
* Wall-clock reads (`new Date().toISOString()`) are supplied through an
  environment value `Env.now`; fresh uuids are drawn from a counter held in
  the engine state.  The display-only fields `daysSinceSignup` /
  `daysSinceLastActivity` of `Customer.toJSON` (derived by re-parsing the
  wall clock) are elided: no behaviour of the engine reads them.
* Thrown JavaScript exceptions are embedded as `Except` results paired with
  the state at the moment of the throw, so side effects performed before a
  throw persist, exactly as in the source.
* The Kafka producer and the email transport are external effects; their
  success or failure is an input: `Env.connected` models the event-service
  `isConnected` flag and `Env.producerOk n` the outcome of the `n`-th
  `producer.send` call.  Rendered email bodies are recorded only as
  `(emailType, customerId)` pairs; the HTML template text plays no role in
  any property considered here.
-/

namespace AcousticJourney

/-- Lookup in a JavaScript `Map` embedded as an association list
(`Map.get`). -/
def mapGet {α : Type} (m : List (String × α)) (k : String) : Option α :=
  match m with
  | [] => none
  | (k', v) :: rest => if k' = k then some v else mapGet rest k

/-- Update in a JavaScript `Map` embedded as an association list: `Map.set`
replaces the entry in place when the key is present and appends otherwise. -/
def mapSet {α : Type} (m : List (String × α)) (k : String) (v : α) :
    List (String × α) :=
  match m with
  | [] => [(k, v)]
  | (k', v') :: rest =>
      if k' = k then (k, v) :: rest else (k', v') :: mapSet rest k v

/-- Removal from a JavaScript `Map` embedded as an association list
(`Map.delete`). -/
def mapDelete {α : Type} (m : List (String × α)) (k : String) :
    List (String × α) :=
  match m with
  | [] => []
  | (k', v') :: rest =>
      if k' = k then rest else (k', v') :: mapDelete rest k

/-- Presence test of a JavaScript `Map` (`Map.has`). -/
def mapHas {α : Type} (m : List (String × α)) (k : String) : Bool :=
  (mapGet m k).isSome

/-- JavaScript `a || b` on an optional string: `undefined` and the empty
string are falsy. -/
def jsOrStr (o : Option String) (d : String) : String :=
  match o with
  | some s => if s = "" then d else s
  | none => d

/-- The `WorkflowState` interface of `src/types`: per-customer workflow
progress owned by a `Customer`. -/
structure WorkflowState where
  currentStep : Nat
  completedSteps : List Nat
  welcomeEmailSent : Bool
  discountCodeSent : Bool
  reminderSent : Bool
  lastEmailSent : Option String
  deriving DecidableEq, Repr

/-- The default workflow state installed by the `Customer` constructor when
the input data carries none. -/
def initialWorkflowState : WorkflowState :=
  { currentStep := 0
    completedSteps := []
    welcomeEmailSent := false
    discountCodeSent := false
    reminderSent := false
    lastEmailSent := none }

/-- The `ProductVisit` interface of `src/types`. -/
structure ProductVisit where
  productId : String
  productName : String
  category : String
  visitedAt : String
  deriving DecidableEq, Repr

/-- The `CustomerMetadata` interface of `src/types` (the free-form part of
the bag is unused by the engine and elided). -/
structure CustomerMetadata where
  lastProductVisit : Option ProductVisit
  deriving DecidableEq, Repr

/-- The `CustomerData` interface of `src/types`: the wire shape of a
customer, with optional fields as `Option`. -/
structure CustomerData where
  id : String
  email : String
  name : String
  signupDate : Option String
  lastActivity : Option String
  preferences : Option (List (String × String))
  workflowState : Option WorkflowState
  metadata : Option CustomerMetadata
  deriving DecidableEq, Repr

/-- The `Customer` class of `src/models/customer.ts`: all fields are
definite after construction. -/
structure Customer where
  id : String
  email : String
  name : String
  signupDate : String
  lastActivity : String
  preferences : List (String × String)
  workflowState : WorkflowState
  metadata : CustomerMetadata
  deriving DecidableEq, Repr

/-- The `Customer` constructor: optional inputs fall back to the wall clock
(`now`), the empty bag, or `initialWorkflowState`. -/
def Customer.make (data : CustomerData) (now : String) : Customer :=
  { id := data.id
    email := data.email
    name := data.name
    signupDate := jsOrStr data.signupDate now
    lastActivity := jsOrStr data.lastActivity now
    preferences := data.preferences.getD []
    workflowState := data.workflowState.getD initialWorkflowState
    metadata := data.metadata.getD { lastProductVisit := none } }

/-- A `Partial<WorkflowState>` argument of `Customer.updateWorkflowState`:
every field may be absent. -/
structure WorkflowUpdate where
  currentStep : Option Nat
  completedSteps : Option (List Nat)
  welcomeEmailSent : Option Bool
  discountCodeSent : Option Bool
  reminderSent : Option Bool
  lastEmailSent : Option (Option String)
  deriving DecidableEq, Repr

/-- The updates the engine actually passes: only idempotency flags and the
last-email timestamp, never `currentStep` or `completedSteps`. -/
def engineUpdate (welcome discount reminder : Option Bool)
    (lastEmail : Option (Option String)) : WorkflowUpdate :=
  { currentStep := none
    completedSteps := none
    welcomeEmailSent := welcome
    discountCodeSent := discount
    reminderSent := reminder
    lastEmailSent := lastEmail }

/-- `Customer.updateWorkflowState`: spread-merge of a partial update over
the current workflow state. -/
def Customer.updateWorkflowState (c : Customer) (u : WorkflowUpdate) :
    Customer :=
  { c with workflowState :=
      { currentStep := u.currentStep.getD c.workflowState.currentStep
        completedSteps := u.completedSteps.getD c.workflowState.completedSteps
        welcomeEmailSent :=
          u.welcomeEmailSent.getD c.workflowState.welcomeEmailSent
        discountCodeSent :=
          u.discountCodeSent.getD c.workflowState.discountCodeSent
        reminderSent := u.reminderSent.getD c.workflowState.reminderSent
        lastEmailSent := u.lastEmailSent.getD c.workflowState.lastEmailSent } }

/-- `Customer.markStepCompleted`: push the step id if it is not already in
the completed list, then raise the current step to
`max(currentStep, stepNumber + 1)`. -/
def Customer.markStepCompleted (c : Customer) (stepNumber : Nat) : Customer :=
  { c with workflowState :=
      { c.workflowState with
          completedSteps :=
            if c.workflowState.completedSteps.contains stepNumber then
              c.workflowState.completedSteps
            else
              c.workflowState.completedSteps ++ [stepNumber]
          currentStep :=
            max c.workflowState.currentStep (stepNumber + 1) } }

/-- `Customer.isStepCompleted`: membership in the completed list. -/
def Customer.isStepCompleted (c : Customer) (stepNumber : Nat) : Bool :=
  c.workflowState.completedSteps.contains stepNumber

/-- `Customer.updateLastActivity`: stamp the activity field with the wall
clock. -/
def Customer.updateLastActivity (c : Customer) (now : String) : Customer :=
  { c with lastActivity := now }

/-- `Customer.toJSON`, minus the two derived day-count display fields (see
the module header). -/
def Customer.toJSON (c : Customer) : CustomerData :=
  { id := c.id
    email := c.email
    name := c.name
    signupDate := some c.signupDate
    lastActivity := some c.lastActivity
    preferences := some c.preferences
    workflowState := some c.workflowState
    metadata := some c.metadata }

/-- Payload of a `PRODUCT_PAGE_VISIT` event (`ProductVisit` joined with the
customer id; `visitedAt` may be absent on the wire). -/
structure VisitEvent where
  customerId : String
  productId : String
  productName : String
  category : String
  visitedAt : Option String
  deriving DecidableEq, Repr

/-- Payload assembled by `triggerWorkflowStep` and consumed by
`executeWorkflowStep`. -/
structure WorkflowData where
  customerId : String
  stepId : Nat
  stepName : String
  action : String
  customer : CustomerData
  productData : Option ProductVisit
  deriving DecidableEq, Repr

/-- Tagged payloads of the events the system publishes or handles. -/
inductive EventData where
  | customer (d : CustomerData)
  | visit (v : VisitEvent)
  | inactive (customerId : String)
  | workflow (wd : WorkflowData)
  | email (customerId : String) (emailType : String)
  deriving DecidableEq, Repr

/-- The `Event` envelope of `src/types`: id, type, timestamp and payload. -/
structure Event where
  id : String
  type : String
  timestamp : String
  data : EventData
  deriving DecidableEq, Repr

/-- External inputs to a run: the event-service connection flag, the outcome
of each `producer.send` call (indexed by the uuid counter at call time), and
the wall clock. -/
structure Env where
  connected : Bool
  producerOk : Nat → Bool
  now : String

/-- The mutable module state of the engine and event service: the customer
registry, the reminder-timer table, the uuid counters, and the logs of
published events and dispatched (console-printed) emails. -/
structure EngineState where
  customers : List (String × Customer)
  timers : List (String × Nat)
  nextTimerId : Nat
  nextEventId : Nat
  published : List (String × Event)
  sentEmails : List (String × String)
  deriving DecidableEq, Repr

/- Default Kafka topic names from `src/config/kafka.ts`. -/
namespace topics

/-- Topic for customer lifecycle events. -/
def CUSTOMER_EVENTS : String := "customer-events"

/-- Topic for workflow trigger/step events. -/
def WORKFLOW_TRIGGERS : String := "workflow-triggers"

/-- Topic for email request/sent events. -/
def EMAIL_NOTIFICATIONS : String := "email-notifications"

end topics

/-- Model of `uuidv4()`: fresh ids are drawn from a counter. -/
def freshEventId (n : Nat) : String :=
  "uuid-" ++ toString n

/-- `publishEvent` of `src/services/eventService.ts`: throws when
disconnected; otherwise constructs the envelope, sends it, and either
returns it or rethrows the producer failure. -/
def publishEvent (env : Env) (st : EngineState) (topic : String)
    (eventType : String) (data : EventData) :
    EngineState × Except String Event :=
  if env.connected = false then
    (st, Except.error "Event service not connected")
  else
    let event : Event :=
      { id := freshEventId st.nextEventId
        type := eventType
        timestamp := env.now
        data := data }
    let st1 := { st with nextEventId := st.nextEventId + 1 }
    if env.producerOk st.nextEventId then
      ({ st1 with published := st1.published ++ [(topic, event)] },
       Except.ok event)
    else
      (st1, Except.error "Failed to publish event")

/-- `publishCustomerSignup`. -/
def publishCustomerSignup (env : Env) (st : EngineState)
    (customerData : CustomerData) : EngineState × Except String Event :=
  publishEvent env st topics.CUSTOMER_EVENTS "CUSTOMER_SIGNUP"
    (EventData.customer customerData)

/-- `publishProductPageVisit`. -/
def publishProductPageVisit (env : Env) (st : EngineState)
    (visitData : VisitEvent) : EngineState × Except String Event :=
  publishEvent env st topics.CUSTOMER_EVENTS "PRODUCT_PAGE_VISIT"
    (EventData.visit visitData)

/-- `publishCustomerInactive`. -/
def publishCustomerInactive (env : Env) (st : EngineState)
    (customerId : String) : EngineState × Except String Event :=
  publishEvent env st topics.CUSTOMER_EVENTS "CUSTOMER_INACTIVE"
    (EventData.inactive customerId)

/-- `publishWorkflowStep`. -/
def publishWorkflowStep (env : Env) (st : EngineState) (stepData : WorkflowData) :
    EngineState × Except String Event :=
  publishEvent env st topics.WORKFLOW_TRIGGERS "WORKFLOW_STEP"
    (EventData.workflow stepData)

/-- Common body of the three `EmailService.send*Email` methods: the delivery
delay never fails, the rendered email is printed (recorded in `sentEmails`),
then an `EMAIL_SENT` event is published; a publish failure is rethrown after
the print, exactly as in the source.  Rendered HTML content is elided. -/
def sendEmailOfType (env : Env) (st : EngineState) (emailType : String)
    (customer : CustomerData) : EngineState × Except String Unit :=
  let st1 := { st with sentEmails := st.sentEmails ++ [(emailType, customer.id)] }
  match publishEvent env st1 topics.EMAIL_NOTIFICATIONS "EMAIL_SENT"
      (EventData.email customer.id emailType) with
  | (st2, Except.ok _) => (st2, Except.ok ())
  | (st2, Except.error e) => (st2, Except.error e)

/-- `EmailService.sendWelcomeEmail`. -/
def sendWelcomeEmail (env : Env) (st : EngineState) (customer : CustomerData) :
    EngineState × Except String Unit :=
  sendEmailOfType env st "welcome" customer

/-- `EmailService.sendDiscountEmail` (the generated discount code and the
product category only affect the elided rendered content). -/
def sendDiscountEmail (env : Env) (st : EngineState) (customer : CustomerData)
    (_productData : Option ProductVisit) : EngineState × Except String Unit :=
  sendEmailOfType env st "discount" customer

/-- `EmailService.sendReminderEmail`. -/
def sendReminderEmail (env : Env) (st : EngineState) (customer : CustomerData) :
    EngineState × Except String Unit :=
  sendEmailOfType env st "reminder" customer

/-- A static workflow step catalog entry (`WorkflowStep` of `src/types`). -/
structure WorkflowStep where
  id : Nat
  name : String
  description : String
  trigger : String
  action : String
  delay : Nat
  deriving DecidableEq, Repr

/- The static `workflowSteps` catalog of `src/services/workflowEngine.ts`
(the demo-mode delay override only rescales the unmodelled wall-clock
duration). -/
namespace workflowSteps

/-- Step 1: welcome email on signup. -/
def STEP_1_WELCOME : WorkflowStep :=
  { id := 1
    name := "Send Welcome Email"
    description := "Send welcome email immediately after signup"
    trigger := "CUSTOMER_SIGNUP"
    action := "SEND_WELCOME_EMAIL"
    delay := 0 }

/-- Step 2: discount email on product page visit. -/
def STEP_2_DISCOUNT : WorkflowStep :=
  { id := 2
    name := "Send Discount Code"
    description := "Send discount code after product page visit"
    trigger := "PRODUCT_PAGE_VISIT"
    action := "SEND_DISCOUNT_EMAIL"
    delay := 0 }

/-- Step 3: reminder email after inactivity. -/
def STEP_3_REMINDER : WorkflowStep :=
  { id := 3
    name := "Send Reminder Email"
    description := "Send reminder if no activity after 7 days"
    trigger := "CUSTOMER_INACTIVE"
    action := "SEND_REMINDER_EMAIL"
    delay := 604800000 }

end workflowSteps

/-- Body of `executeWorkflowStep` up to its `try`/`catch`: look the customer
up (falling back to a reconstruction from the event's embedded snapshot),
dispatch the email for the action, and on success set the idempotency flag,
mark the step completed, and store the customer.  Errors are returned with
the state at the moment of the throw. -/
def executeWorkflowStepBody (env : Env) (st : EngineState) (wd : WorkflowData) :
    EngineState × Except String Unit :=
  let customerObj :=
    match mapGet st.customers wd.customerId with
    | some c => c
    | none => Customer.make wd.customer env.now
  if wd.action = "SEND_WELCOME_EMAIL" then
    match sendWelcomeEmail env st customerObj.toJSON with
    | (st1, Except.error e) => (st1, Except.error e)
    | (st1, Except.ok _) =>
        let c1 :=
          (customerObj.updateWorkflowState
            (engineUpdate (some true) none none (some (some env.now)))).markStepCompleted
            wd.stepId
        ({ st1 with customers := mapSet st1.customers wd.customerId c1 },
         Except.ok ())
  else if wd.action = "SEND_DISCOUNT_EMAIL" then
    match sendDiscountEmail env st customerObj.toJSON wd.productData with
    | (st1, Except.error e) => (st1, Except.error e)
    | (st1, Except.ok _) =>
        let c1 :=
          (customerObj.updateWorkflowState
            (engineUpdate none (some true) none (some (some env.now)))).markStepCompleted
            wd.stepId
        ({ st1 with customers := mapSet st1.customers wd.customerId c1 },
         Except.ok ())
  else if wd.action = "SEND_REMINDER_EMAIL" then
    match sendReminderEmail env st customerObj.toJSON with
    | (st1, Except.error e) => (st1, Except.error e)
    | (st1, Except.ok _) =>
        let c1 :=
          (customerObj.updateWorkflowState
            (engineUpdate none none (some true) (some (some env.now)))).markStepCompleted
            wd.stepId
        ({ st1 with customers := mapSet st1.customers wd.customerId c1 },
         Except.ok ())
  else
    (st, Except.error ("Unknown workflow action: " ++ wd.action))

/-- `executeWorkflowStep`: the body wrapped in its `try`/`catch` — a failure
is logged and the state at the throw is kept, nothing propagates. -/
def executeWorkflowStep (env : Env) (st : EngineState) (wd : WorkflowData) :
    EngineState :=
  (executeWorkflowStepBody env st wd).1

/-- `triggerWorkflowStep`: publish the `WORKFLOW_STEP` event, then execute
the step; its `try`/`catch` means a publish failure skips the execution. -/
def triggerWorkflowStep (env : Env) (st : EngineState) (customer : Customer)
    (step : WorkflowStep) (productData : Option ProductVisit) : EngineState :=
  let wd : WorkflowData :=
    { customerId := customer.id
      stepId := step.id
      stepName := step.name
      action := step.action
      customer := customer.toJSON
      productData := productData }
  match publishWorkflowStep env st wd with
  | (st1, Except.error _) => st1
  | (st1, Except.ok _) => executeWorkflowStep env st1 wd

/-- `cancelReminderTimer`: `clearTimeout` plus table removal when a timer is
present, a no-op otherwise. -/
def cancelReminderTimer (st : EngineState) (customerId : String) : EngineState :=
  match mapGet st.timers customerId with
  | some _ => { st with timers := mapDelete st.timers customerId }
  | none => st

/-- `scheduleReminderCheck`: cancel any existing timer for the customer,
then arm a fresh one (fresh ids come from the timer counter). -/
def scheduleReminderCheck (st : EngineState) (customerId : String) : EngineState :=
  let st1 := cancelReminderTimer st customerId
  { st1 with
      timers := mapSet st1.timers customerId st1.nextTimerId
      nextTimerId := st1.nextTimerId + 1 }

/-- The `setTimeout` callback armed by `scheduleReminderCheck`: it runs only
if the timer is still the one in the table (`clearTimeout` semantics), then
re-checks that the customer exists and has not completed step 3 before
publishing a `CUSTOMER_INACTIVE` event. -/
def fireReminderTimer (env : Env) (st : EngineState) (customerId : String)
    (timerId : Nat) : EngineState :=
  if mapGet st.timers customerId = some timerId then
    match mapGet st.customers customerId with
    | some currentCustomer =>
        if currentCustomer.isStepCompleted 3 = false then
          (publishCustomerInactive env st customerId).1
        else st
    | none => st
  else st

/-- `handleCustomerSignup`: construct and store a customer from the event
payload, trigger the welcome step, and arm the inactivity timer. -/
def handleCustomerSignup (env : Env) (st : EngineState)
    (customerData : CustomerData) : EngineState :=
  let customer := Customer.make customerData env.now
  let st1 := { st with customers := mapSet st.customers customer.id customer }
  let st2 := triggerWorkflowStep env st1 customer workflowSteps.STEP_1_WELCOME none
  scheduleReminderCheck st2 customer.id

/-- `handleProductPageVisit`: discard if the customer is unknown; otherwise
refresh activity and metadata, trigger the discount step unless step 2 is
completed, then cancel and re-arm the inactivity timer. -/
def handleProductPageVisit (env : Env) (st : EngineState)
    (visitData : VisitEvent) : EngineState :=
  match mapGet st.customers visitData.customerId with
  | none => st
  | some customer =>
      let customer1 :=
        { customer.updateLastActivity env.now with
            metadata :=
              { lastProductVisit := some
                  { productId := visitData.productId
                    productName := visitData.productName
                    category := visitData.category
                    visitedAt := jsOrStr visitData.visitedAt env.now } } }
      let st1 :=
        { st with customers := mapSet st.customers visitData.customerId customer1 }
      let st2 :=
        if customer1.isStepCompleted 2 = false then
          triggerWorkflowStep env st1 customer1 workflowSteps.STEP_2_DISCOUNT
            customer1.metadata.lastProductVisit
        else st1
      let st3 := cancelReminderTimer st2 visitData.customerId
      scheduleReminderCheck st3 visitData.customerId

/-- `handleCustomerInactive`: discard if the customer is unknown; otherwise
trigger the reminder step unless step 3 is completed. -/
def handleCustomerInactive (env : Env) (st : EngineState)
    (customerId : String) : EngineState :=
  match mapGet st.customers customerId with
  | none => st
  | some customer =>
      if customer.isStepCompleted 3 = false then
        triggerWorkflowStep env st customer workflowSteps.STEP_3_REMINDER none
      else st

/-- `handleEvent`: the event-type switch of the engine (events whose payload
shape does not match their declared type are outside the model). -/
def handleEvent (env : Env) (st : EngineState) (event : Event) : EngineState :=
  if event.type = "CUSTOMER_SIGNUP" then
    match event.data with
    | EventData.customer d => handleCustomerSignup env st d
    | _ => st
  else if event.type = "PRODUCT_PAGE_VISIT" then
    match event.data with
    | EventData.visit v => handleProductPageVisit env st v
    | _ => st
  else if event.type = "CUSTOMER_INACTIVE" then
    match event.data with
    | EventData.inactive cid => handleCustomerInactive env st cid
    | _ => st
  else if event.type = "WORKFLOW_TRIGGER" || event.type = "WORKFLOW_STEP" then
    match event.data with
    | EventData.workflow wd => executeWorkflowStep env st wd
    | _ => st
  else
    st

/-- One row of the `workflow.steps` list in a status view. -/
structure StepStatus where
  id : Nat
  name : String
  description : String
  completed : Bool
  completedAt : Option String
  deriving DecidableEq, Repr

/-- The `workflow` part of the `WorkflowStatus` view. -/
structure WorkflowInfo where
  steps : List StepStatus
  currentStep : Nat
  completedSteps : List Nat
  hasActiveReminder : Bool
  deriving DecidableEq, Repr

/-- The `WorkflowStatus` view returned by `getWorkflowStatus`. -/
structure WorkflowStatus where
  customer : CustomerData
  workflow : WorkflowInfo
  deriving DecidableEq, Repr

/-- One catalog step rendered for a status view. -/
def stepStatusOf (customer : Customer) (step : WorkflowStep) : StepStatus :=
  { id := step.id
    name := step.name
    description := step.description
    completed := customer.isStepCompleted step.id
    completedAt :=
      if customer.isStepCompleted step.id then
        customer.workflowState.lastEmailSent
      else none }

/-- `getCustomer` of the workflow engine: a plain registry lookup. -/
def getCustomer (st : EngineState) (customerId : String) : Option Customer :=
  mapGet st.customers customerId

/-- `getAllCustomers` of the workflow engine. -/
def getAllCustomers (st : EngineState) : List CustomerData :=
  st.customers.map (fun p => p.2.toJSON)

/-- `getWorkflowStatus` of the workflow engine: `null` for an unknown id,
otherwise the rendered status view (catalog order is the `Object.values`
insertion order STEP_1, STEP_2, STEP_3). -/
def getWorkflowStatus (st : EngineState) (customerId : String) :
    Option WorkflowStatus :=
  match mapGet st.customers customerId with
  | none => none
  | some customer =>
      some
        { customer := customer.toJSON
          workflow :=
            { steps :=
                [workflowSteps.STEP_1_WELCOME, workflowSteps.STEP_2_DISCOUNT,
                  workflowSteps.STEP_3_REMINDER].map (stepStatusOf customer)
              currentStep := customer.workflowState.currentStep
              completedSteps := customer.workflowState.completedSteps
              hasActiveReminder := mapHas st.timers customerId } }

/-- `simulateTimePassage` of the workflow engine: for a known customer with
an armed timer, cancel it and publish a `CUSTOMER_INACTIVE` event (whose
failure propagates to the caller); otherwise do nothing. -/
def simulateTimePassage (env : Env) (st : EngineState) (customerId : String) :
    EngineState × Except String Unit :=
  match mapGet st.customers customerId with
  | some _ =>
      if mapHas st.timers customerId then
        let st1 := cancelReminderTimer st customerId
        match publishCustomerInactive env st1 customerId with
        | (st2, Except.ok _) => (st2, Except.ok ())
        | (st2, Except.error e) => (st2, Except.error e)
      else (st, Except.ok ())
  | none => (st, Except.ok ())

/-- The `ValidationResult` shape of `src/validation/baseValidator.ts`. -/
structure ValidationResult where
  isValid : Bool
  error : Option String
  deriving DecidableEq, Repr

/-- Hexadecimal character test. -/
def isHexChar (c : Char) : Bool :=
  ("0123456789abcdefABCDEF".toList).contains c

/-- Splits a character list on a separator character (the groups between
separators, in order). -/
def splitOnChar (sep : Char) : List Char → List (List Char)
  | [] => [[]]
  | c :: rest =>
      if c = sep then [] :: splitOnChar sep rest
      else
        match splitOnChar sep rest with
        | [] => [[c]]
        | g :: gs => (c :: g) :: gs

/-- Model of Joi's `.uuid()` string check, restricted to the canonical
hyphenated `8-4-4-4-12` hexadecimal form (Joi's brace-wrapped and urn
variants are elided; every id this system generates is canonical). -/
def isUuidString (s : String) : Bool :=
  match splitOnChar '-' s.toList with
  | [a, b, c, d, e] =>
      a.length = 8 && b.length = 4 && c.length = 4 && d.length = 4 &&
      e.length = 12 && (a ++ b ++ c ++ d ++ e).all isHexChar
  | _ => false

/-- `CustomerValidator.validateCustomerId`: the Joi uuid schema with the
customized `Invalid customer ID format` message. -/
def validateCustomerId (customerId : String) : ValidationResult :=
  if isUuidString customerId then { isValid := true, error := none }
  else { isValid := false, error := some "Invalid customer ID format" }

/-- The `ApiResponse` shape of `src/types` returned by the customer
service. -/
structure ApiResponse (α : Type) where
  success : Bool
  message : Option String
  error : Option String
  data : Option α
  deriving DecidableEq, Repr

/-- `customerService.getCustomerById`: validate the id, look the customer up
in the workflow registry, and report `Customer not found` when absent. -/
def getCustomerById (st : EngineState) (customerId : String) :
    ApiResponse CustomerData :=
  if (validateCustomerId customerId).isValid = false then
    { success := false
      message := none
      error := (validateCustomerId customerId).error
      data := none }
  else
    match mapGet st.customers customerId with
    | none =>
        { success := false
          message := none
          error := some "Customer not found"
          data := none }
    | some customer =>
        { success := true
          message := none
          error := none
          data := some customer.toJSON }

/-- `customerService.getCustomerWorkflowStatus`: validate the id, read the
engine's status view, and report `Customer not found` when it is `null`. -/
def getCustomerWorkflowStatus (st : EngineState) (customerId : String) :
    ApiResponse WorkflowStatus :=
  if (validateCustomerId customerId).isValid = false then
    { success := false
      message := none
      error := (validateCustomerId customerId).error
      data := none }
  else
    match getWorkflowStatus st customerId with
    | none =>
        { success := false
          message := none
          error := some "Customer not found"
          data := none }
    | some status =>
        { success := true
          message := none
          error := none
          data := some status }

/-- `customerService.simulateTimePassage`: validate the id, check presence,
delegate to the engine, and map a thrown publish failure to the internal
server error response of the service's `catch`. -/
def serviceSimulateTimePassage (env : Env) (st : EngineState)
    (customerId : String) : EngineState × ApiResponse String :=
  if (validateCustomerId customerId).isValid = false then
    (st,
     { success := false
       message := none
       error := (validateCustomerId customerId).error
       data := none })
  else
    match mapGet st.customers customerId with
    | none =>
        (st,
         { success := false
           message := none
           error := some "Customer not found"
           data := none })
    | some _ =>
        match simulateTimePassage env st customerId with
        | (st1, Except.ok _) =>
            (st1,
             { success := true
               message := some
                 "Time passage simulated! Reminder email should be triggered if applicable."
               error := none
               data := some customerId })
        | (st1, Except.error _) =>
            (st1,
             { success := false
               message := none
               error := some "Internal server error during time simulation"
               data := none })

/-- Well-formedness of the timer table: at most one entry per customer id
(distinct keys) and every armed timer id was drawn from the counter. -/
def TimersWF (st : EngineState) : Prop :=
  (st.timers.map Prod.fst).Nodup ∧ ∀ p ∈ st.timers, p.2 < st.nextTimerId

/-- The `WorkflowState` invariant of the spec: no duplicate completed step
ids, and the current step strictly exceeds every completed step id. -/
def WorkflowInv (w : WorkflowState) : Prop :=
  w.completedSteps.Nodup ∧ ∀ s ∈ w.completedSteps, s + 1 ≤ w.currentStep

/-- One mutation of a `Customer` by the engine's operation vocabulary. -/
inductive CustomerOp where
  | mark (stepId : Nat)
  | update (u : WorkflowUpdate)
  deriving DecidableEq, Repr

/-- Apply a single customer operation. -/
def applyOp (c : Customer) : CustomerOp → Customer
  | CustomerOp.mark stepId => c.markStepCompleted stepId
  | CustomerOp.update u => c.updateWorkflowState u

/-- Apply a sequence of customer operations left to right. -/
def applyOps (c : Customer) (ops : List CustomerOp) : Customer :=
  ops.foldl applyOp c

/-- Recognizes the update shapes `executeWorkflowStep` actually passes:
idempotency flags and `lastEmailSent` only, never `currentStep` or
`completedSteps`. -/
def isEngineOp : CustomerOp → Bool
  | CustomerOp.mark _ => true
  | CustomerOp.update u => u.currentStep.isNone && u.completedSteps.isNone

/-- The three action ids `executeWorkflowStep` recognizes. -/
def knownWorkflowActions : List String :=
  ["SEND_WELCOME_EMAIL", "SEND_DISCOUNT_EMAIL", "SEND_REMINDER_EMAIL"]

/- Concrete fixtures used by witnesses and counterexamples. -/

/-- An environment in which the bus is connected and every send succeeds. -/
def envOk : Env :=
  { connected := true
    producerOk := fun _ => true
    now := "2026-01-01T00:00:00.000Z" }

/-- An environment in which the event service is not connected. -/
def envDown : Env :=
  { connected := false
    producerOk := fun _ => true
    now := "2026-01-01T00:00:00.000Z" }

/-- A canonical customer id. -/
def aliceId : String := "aaaaaaaa-aaaa-4aaa-8aaa-aaaaaaaaaaaa"

/-- A second canonical customer id. -/
def bobId : String := "bbbbbbbb-bbbb-4bbb-8bbb-bbbbbbbbbbbb"

/-- Signup payload for Alice, shaped as `createCustomer` publishes it. -/
def aliceSignup : CustomerData :=
  { id := aliceId
    email := "alice@x.com"
    name := "Alice"
    signupDate := some "2025-12-31T00:00:00.000Z"
    lastActivity := none
    preferences := some []
    workflowState := none
    metadata := none }

/-- Signup payload for Bob. -/
def bobSignup : CustomerData :=
  { id := bobId
    email := "bob@x.com"
    name := "Bob"
    signupDate := some "2025-12-31T00:00:00.000Z"
    lastActivity := none
    preferences := some []
    workflowState := none
    metadata := none }

/-- Workflow state with step 1 completed. -/
def wsDone1 : WorkflowState :=
  { currentStep := 2
    completedSteps := [1]
    welcomeEmailSent := true
    discountCodeSent := false
    reminderSent := false
    lastEmailSent := some "2025-12-31T00:00:00.000Z" }

/-- Workflow state with steps 1 and 2 completed. -/
def wsDone12 : WorkflowState :=
  { currentStep := 3
    completedSteps := [1, 2]
    welcomeEmailSent := true
    discountCodeSent := true
    reminderSent := false
    lastEmailSent := some "2025-12-31T00:00:00.000Z" }

/-- Workflow state with all three steps completed. -/
def wsDone123 : WorkflowState :=
  { currentStep := 4
    completedSteps := [1, 2, 3]
    welcomeEmailSent := true
    discountCodeSent := true
    reminderSent := true
    lastEmailSent := some "2025-12-31T00:00:00.000Z" }

/-- Alice as a stored customer with the given workflow state. -/
def aliceWith (w : WorkflowState) : Customer :=
  { id := aliceId
    email := "alice@x.com"
    name := "Alice"
    signupDate := "2025-12-31T00:00:00.000Z"
    lastActivity := "2025-12-31T00:00:00.000Z"
    preferences := []
    workflowState := w
    metadata := { lastProductVisit := none } }

/-- The empty engine state. -/
def emptyState : EngineState :=
  { customers := []
    timers := []
    nextTimerId := 0
    nextEventId := 0
    published := []
    sentEmails := [] }

/-- State holding Alice with step 1 completed. -/
def stAlice1 : EngineState :=
  { emptyState with customers := [(aliceId, aliceWith wsDone1)] }

/-- State holding Alice with steps 1 and 2 completed. -/
def stAlice12 : EngineState :=
  { emptyState with customers := [(aliceId, aliceWith wsDone12)] }

/-- State holding Alice with all steps completed. -/
def stAlice123 : EngineState :=
  { emptyState with customers := [(aliceId, aliceWith wsDone123)] }

/-- State holding Alice with all steps completed and an armed timer. -/
def stAlice123T : EngineState :=
  { emptyState with
      customers := [(aliceId, aliceWith wsDone123)]
      timers := [(aliceId, 0)]
      nextTimerId := 1 }

/-- A `WORKFLOW_STEP` payload for Bob, who is absent from the registry. -/
def wdBob : WorkflowData :=
  { customerId := bobId
    stepId := 1
    stepName := "Send Welcome Email"
    action := "SEND_WELCOME_EMAIL"
    customer := bobSignup
    productData := none }

/-- A product-visit event payload for Alice. -/
def visitP1 : VisitEvent :=
  { customerId := aliceId
    productId := "P1"
    productName := "Product One"
    category := "Shoes"
    visitedAt := none }

/-- The `Partial<WorkflowState>` update that overrides `currentStep` with 0
(expressible by the `updateWorkflowState` signature, never passed by the
engine). -/
def lowerCurrentStep : WorkflowUpdate :=
  { currentStep := some 0
    completedSteps := none
    welcomeEmailSent := none
    discountCodeSent := none
    reminderSent := none
    lastEmailSent := none }

/-- A sample engine-shaped operation sequence: mark step 1, set the welcome
flag, mark step 2. -/
def opsW : List CustomerOp :=
  [CustomerOp.mark 1,
   CustomerOp.update (engineUpdate (some true) none none
     (some (some "2026-01-01T00:00:00.000Z"))),
   CustomerOp.mark 2]

/-- Setting a key makes it present with the set value. -/
theorem mapGet_mapSet_self {α : Type} (m : List (String × α)) (k : String)
    (v : α) : mapGet (mapSet m k v) k = some v := by
  induction m with
  | nil => simp [mapSet, mapGet]
  | cons p rest ih =>
      by_cases h : p.1 = k
      · simp [mapSet, mapGet, h]
      · simp [mapSet, mapGet, h, ih]

/-- Setting one key leaves lookups of other keys unchanged. -/
theorem mapGet_mapSet_of_ne {α : Type} (m : List (String × α))
    {k k' : String} (v : α) (h : k' ≠ k) :
    mapGet (mapSet m k v) k' = mapGet m k' := by
  have hk : ¬ k = k' := fun hk => h hk.symm
  induction m with
  | nil => simp [mapSet, mapGet, hk]
  | cons p rest ih =>
      by_cases hp : p.1 = k
      · simp [mapSet, mapGet, hk, hp]
      · simp only [mapSet, if_neg hp, mapGet]
        by_cases hp' : p.1 = k'
        · simp [hp']
        · simp [hp', ih]

/-- Setting the same key twice keeps only the second value. -/
theorem mapSet_mapSet {α : Type} (m : List (String × α)) (k : String)
    (a b : α) : mapSet (mapSet m k a) k b = mapSet m k b := by
  induction m with
  | nil => simp [mapSet]
  | cons p rest ih =>
      by_cases h : p.1 = k
      · simp [mapSet, h]
      · simp [mapSet, h, ih]

/-- A key is absent exactly when it is not among the stored keys. -/
theorem mapGet_eq_none_iff {α : Type} (m : List (String × α)) (k : String) :
    mapGet m k = none ↔ k ∉ m.map Prod.fst := by
  induction m with
  | nil => simp [mapGet]
  | cons p rest ih =>
      by_cases h : p.1 = k
      · simp [mapGet, h]
      · have hk : ¬ k = p.1 := fun hk => h hk.symm
        simp [mapGet, h, hk, ih]

/-- Keys after `mapSet`: unchanged when the key was present, the key
appended otherwise. -/
theorem keys_mapSet {α : Type} (m : List (String × α)) (k : String) (v : α) :
    (mapSet m k v).map Prod.fst =
      if k ∈ m.map Prod.fst then m.map Prod.fst
      else m.map Prod.fst ++ [k] := by
  induction m with
  | nil => simp [mapSet]
  | cons p rest ih =>
      by_cases h : p.1 = k
      · simp [mapSet, h]
      · have hk : ¬ k = p.1 := fun hk => h hk.symm
        simp only [mapSet, if_neg h, List.map_cons, ih, List.mem_cons, hk,
          false_or]
        by_cases hm : k ∈ rest.map Prod.fst
        · simp [hm]
        · simp [hm]

/-- `mapSet` preserves distinctness of keys. -/
theorem keys_nodup_mapSet {α : Type} {m : List (String × α)} {k : String}
    {v : α} (h : (m.map Prod.fst).Nodup) :
    ((mapSet m k v).map Prod.fst).Nodup := by
  rw [keys_mapSet]
  by_cases hm : k ∈ m.map Prod.fst
  · simpa [hm]
  · rw [if_neg hm]
    refine List.Nodup.append h (List.nodup_singleton k) ?_
    intro a ha hk
    rw [List.mem_singleton] at hk
    exact hm (hk ▸ ha)

/-- Entries of `mapSet` come from the original list or are the new pair. -/
theorem mem_mapSet {α : Type} {m : List (String × α)} {k : String} {v : α}
    {p : String × α} (h : p ∈ mapSet m k v) : p ∈ m ∨ p = (k, v) := by
  induction m with
  | nil =>
      simp only [mapSet, List.mem_singleton] at h
      exact Or.inr h
  | cons q rest ih =>
      by_cases hq : q.1 = k
      · rw [show mapSet (q :: rest) k v = (k, v) :: rest by
          simp [mapSet, hq]] at h
        rcases List.mem_cons.mp h with h1 | h1
        · exact Or.inr h1
        · exact Or.inl (List.mem_cons_of_mem q h1)
      · rw [show mapSet (q :: rest) k v = q :: mapSet rest k v by
          simp [mapSet, hq]] at h
        rcases List.mem_cons.mp h with h1 | h1
        · exact Or.inl (by rw [h1]; exact List.mem_cons_self q rest)
        · rcases ih h1 with h2 | h2
          · exact Or.inl (List.mem_cons_of_mem q h2)
          · exact Or.inr h2

/-- Entries survive `mapDelete` only if they were already present. -/
theorem mem_mapDelete {α : Type} {m : List (String × α)} {k : String}
    {p : String × α} (h : p ∈ mapDelete m k) : p ∈ m := by
  induction m with
  | nil => simp [mapDelete] at h
  | cons q rest ih =>
      by_cases hq : q.1 = k
      · rw [show mapDelete (q :: rest) k = rest by simp [mapDelete, hq]] at h
        exact List.mem_cons_of_mem q h
      · rw [show mapDelete (q :: rest) k = q :: mapDelete rest k by
          simp [mapDelete, hq]] at h
        rcases List.mem_cons.mp h with h1 | h1
        · rw [h1]; exact List.mem_cons_self q rest
        · exact List.mem_cons_of_mem q (ih h1)

/-- Keys surviving `mapDelete` were already keys. -/
theorem keys_mapDelete_subset {α : Type} {m : List (String × α)} {k : String}
    {x : String} (h : x ∈ (mapDelete m k).map Prod.fst) :
    x ∈ m.map Prod.fst := by
  rcases List.mem_map.mp h with ⟨p, hp, hpx⟩
  exact List.mem_map.mpr ⟨p, mem_mapDelete hp, hpx⟩

/-- `mapDelete` preserves distinctness of keys. -/
theorem keys_nodup_mapDelete {α : Type} {m : List (String × α)} {k : String}
    (h : (m.map Prod.fst).Nodup) :
    ((mapDelete m k).map Prod.fst).Nodup := by
  induction m with
  | nil => simp [mapDelete]
  | cons q rest ih =>
      rw [List.map_cons] at h
      rcases List.nodup_cons.mp h with ⟨hq, hrest⟩
      by_cases hk : q.1 = k
      · rw [show mapDelete (q :: rest) k = rest by simp [mapDelete, hk]]
        exact hrest
      · rw [show mapDelete (q :: rest) k = q :: mapDelete rest k by
          simp [mapDelete, hk], List.map_cons]
        exact List.nodup_cons.mpr
          ⟨fun hx => hq (keys_mapDelete_subset hx), ih hrest⟩

/-- A successful lookup exhibits a stored entry. -/
theorem mapGet_mem {α : Type} {m : List (String × α)} {k : String} {v : α}
    (h : mapGet m k = some v) : (k, v) ∈ m := by
  induction m with
  | nil => simp [mapGet] at h
  | cons q rest ih =>
      by_cases hq : q.1 = k
      · have hv : q.2 = v := by
          rw [show mapGet (q :: rest) k = some q.2 by simp [mapGet, hq]] at h
          exact Option.some_injective _ h
        have hqv : q = (k, v) := by
          cases q
          simp_all
        rw [← hqv]
        exact List.mem_cons_self q rest
      · rw [show mapGet (q :: rest) k = mapGet rest k by simp [mapGet, hq]] at h
        exact List.mem_cons_of_mem q (ih h)

/-- Cancelling a reminder timer changes only the timer table. -/
theorem cancelReminderTimer_fields (st : EngineState) (cid : String) :
    (cancelReminderTimer st cid).customers = st.customers ∧
    (cancelReminderTimer st cid).sentEmails = st.sentEmails ∧
    (cancelReminderTimer st cid).published = st.published ∧
    (cancelReminderTimer st cid).nextTimerId = st.nextTimerId ∧
    (cancelReminderTimer st cid).nextEventId = st.nextEventId := by
  unfold cancelReminderTimer
  cases mapGet st.timers cid <;> simp

/-- Scheduling a reminder changes only the timer table and timer counter. -/
theorem scheduleReminderCheck_fields (st : EngineState) (cid : String) :
    (scheduleReminderCheck st cid).customers = st.customers ∧
    (scheduleReminderCheck st cid).sentEmails = st.sentEmails ∧
    (scheduleReminderCheck st cid).published = st.published ∧
    (scheduleReminderCheck st cid).nextEventId = st.nextEventId := by
  unfold scheduleReminderCheck
  rcases cancelReminderTimer_fields st cid with ⟨h1, h2, h3, _, h5⟩
  simp [h1, h2, h3, h5]

/-- After scheduling, the armed timer for the customer is the fresh one. -/
theorem scheduleReminderCheck_get (st : EngineState) (cid : String) :
    mapGet (scheduleReminderCheck st cid).timers cid = some st.nextTimerId := by
  unfold scheduleReminderCheck
  rcases cancelReminderTimer_fields st cid with ⟨_, _, _, h4, _⟩
  simp [mapGet_mapSet_self, h4]

/-- C5.  `publishEvent` throws a transport error and builds no envelope when
the event service is not connected; when connected and the producer send
succeeds it returns the constructed envelope carrying the fresh id, the
given event type, the wall-clock timestamp, and the given payload. -/
theorem publishEvent_connection_contract (env : Env) (st : EngineState)
    (topic eventType : String) (data : EventData) :
    (env.connected = false →
      publishEvent env st topic eventType data =
        (st, Except.error "Event service not connected")) ∧
    (env.connected = true → env.producerOk st.nextEventId = true →
      (publishEvent env st topic eventType data).2 =
        Except.ok
          { id := freshEventId st.nextEventId
            type := eventType
            timestamp := env.now
            data := data }) := by
  constructor
  · intro h
    simp [publishEvent, h]
  · intro h hp
    simp [publishEvent, h, hp]

/-- Witness for C5 at concrete inputs: a disconnected publish fails without
effect, a connected one returns the envelope. -/
theorem publishEvent_connection_contract_witness :
    publishEvent envDown emptyState topics.CUSTOMER_EVENTS "CUSTOMER_SIGNUP"
        (EventData.inactive bobId) =
      (emptyState, Except.error "Event service not connected") ∧
    (publishEvent envOk emptyState topics.CUSTOMER_EVENTS "CUSTOMER_SIGNUP"
        (EventData.inactive bobId)).2 =
      Except.ok
        { id := freshEventId emptyState.nextEventId
          type := "CUSTOMER_SIGNUP"
          timestamp := envOk.now
          data := EventData.inactive bobId } :=
  ⟨(publishEvent_connection_contract envDown emptyState topics.CUSTOMER_EVENTS
      "CUSTOMER_SIGNUP" (EventData.inactive bobId)).1 rfl,
   (publishEvent_connection_contract envOk emptyState topics.CUSTOMER_EVENTS
      "CUSTOMER_SIGNUP" (EventData.inactive bobId)).2 rfl rfl⟩

/-- C8.  The timer table keeps at most one well-formed timer per customer
id: both scheduling and cancelling preserve well-formedness, cancelling
with no armed timer is a no-op on the whole state, and scheduling replaces
any previously armed timer (the old one can no longer be the armed one). -/
theorem timer_table_contract (st : EngineState) (cid : String)
    (h : TimersWF st) :
    TimersWF (scheduleReminderCheck st cid) ∧
    TimersWF (cancelReminderTimer st cid) ∧
    (mapGet st.timers cid = none → cancelReminderTimer st cid = st) ∧
    (∀ t, mapGet st.timers cid = some t →
      mapGet (scheduleReminderCheck st cid).timers cid ≠ some t) := by
  have hcancel : TimersWF (cancelReminderTimer st cid) := by
    unfold TimersWF cancelReminderTimer
    cases hg : mapGet st.timers cid with
    | none => exact h
    | some t =>
        refine ⟨keys_nodup_mapDelete h.1, ?_⟩
        intro p hp
        exact h.2 p (mem_mapDelete hp)
  refine ⟨?_, hcancel, ?_, ?_⟩
  · unfold TimersWF scheduleReminderCheck
    rcases cancelReminderTimer_fields st cid with ⟨_, _, _, h4, _⟩
    refine ⟨keys_nodup_mapSet hcancel.1, ?_⟩
    intro p hp
    rcases mem_mapSet hp with h1 | h1
    · exact Nat.lt_succ_of_lt (hcancel.2 p h1)
    · rw [h1]
      exact Nat.lt_succ_self _
  · intro hg
    simp [cancelReminderTimer, hg]
  · intro t hg
    rw [scheduleReminderCheck_get st cid]
    have ht : t < st.nextTimerId := h.2 (cid, t) (mapGet_mem hg)
    intro hc
    exact absurd (Option.some_injective _ hc).symm (Nat.ne_of_lt ht)

/-- Witness for C8 at a concrete state holding one armed timer. -/
theorem timer_table_contract_witness :
    TimersWF (scheduleReminderCheck stAlice123T aliceId) ∧
    cancelReminderTimer emptyState bobId = emptyState ∧
    mapGet (scheduleReminderCheck stAlice123T aliceId).timers aliceId ≠
      some 0 :=
  ⟨(timer_table_contract stAlice123T aliceId
      (by simp only [TimersWF]; decide)).1,
   (timer_table_contract emptyState bobId
      (by simp only [TimersWF]; decide)).2.2.1 (by decide),
   (timer_table_contract stAlice123T aliceId
      (by simp only [TimersWF]; decide)).2.2.2 0 (by decide)⟩

/-- A single engine-shaped operation preserves the workflow invariant and
never lowers the current step. -/
theorem applyOp_preserves (c : Customer) (op : CustomerOp)
    (hop : isEngineOp op = true) (h : WorkflowInv c.workflowState) :
    WorkflowInv (applyOp c op).workflowState ∧
    c.workflowState.currentStep ≤ (applyOp c op).workflowState.currentStep := by
  cases op with
  | mark stepId =>
      have hcur : (applyOp c (CustomerOp.mark stepId)).workflowState.currentStep
          = max c.workflowState.currentStep (stepId + 1) := rfl
      cases hcb : c.workflowState.completedSteps.contains stepId with
      | true =>
          have hmem : stepId ∈ c.workflowState.completedSteps := by
            simpa using hcb
          have hsteps :
              (applyOp c (CustomerOp.mark stepId)).workflowState.completedSteps
                = c.workflowState.completedSteps := by
            simp [applyOp, Customer.markStepCompleted, hmem]
          refine ⟨⟨?_, ?_⟩, ?_⟩
          · rw [hsteps]
            exact h.1
          · intro s hs
            rw [hsteps] at hs
            rw [hcur]
            exact le_trans (h.2 s hs) (Nat.le_max_left _ _)
          · rw [hcur]
            exact Nat.le_max_left _ _
      | false =>
          have hmem : stepId ∉ c.workflowState.completedSteps := by
            simpa using hcb
          have hsteps :
              (applyOp c (CustomerOp.mark stepId)).workflowState.completedSteps
                = c.workflowState.completedSteps ++ [stepId] := by
            simp [applyOp, Customer.markStepCompleted, hmem]
          refine ⟨⟨?_, ?_⟩, ?_⟩
          · rw [hsteps]
            refine List.Nodup.append h.1 (List.nodup_singleton stepId) ?_
            intro a ha hka
            rw [List.mem_singleton] at hka
            exact hmem (hka ▸ ha)
          · intro s hs
            rw [hsteps, List.mem_append, List.mem_singleton] at hs
            rw [hcur]
            rcases hs with hs | hs
            · exact le_trans (h.2 s hs) (Nat.le_max_left _ _)
            · rw [hs]
              exact Nat.le_max_right _ _
          · rw [hcur]
            exact Nat.le_max_left _ _
  | update u =>
      have h12 : u.currentStep = none ∧ u.completedSteps = none := by
        simpa [isEngineOp] using hop
      have hws : (applyOp c (CustomerOp.update u)).workflowState.completedSteps
          = c.workflowState.completedSteps := by
        simp [applyOp, Customer.updateWorkflowState, h12.2]
      have hws2 : (applyOp c (CustomerOp.update u)).workflowState.currentStep
          = c.workflowState.currentStep := by
        simp [applyOp, Customer.updateWorkflowState, h12.1]
      refine ⟨⟨?_, ?_⟩, ?_⟩
      · rw [hws]
        exact h.1
      · intro s hs
        rw [hws] at hs
        rw [hws2]
        exact h.2 s hs
      · rw [hws2]

/-- Engine-shaped operation sequences preserve the workflow invariant. -/
theorem applyOps_preserves (c : Customer) (ops : List CustomerOp)
    (hops : ∀ op ∈ ops, isEngineOp op = true)
    (h : WorkflowInv c.workflowState) :
    WorkflowInv (applyOps c ops).workflowState := by
  induction ops generalizing c with
  | nil => simpa [applyOps]
  | cons op rest ih =>
      have h1 := applyOp_preserves c op (hops op (List.mem_cons_self _ _)) h
      simpa [applyOps] using
        ih (applyOp c op) (fun o ho => hops o (List.mem_cons_of_mem _ ho)) h1.1

/-- C2 (amended).  Starting from the constructor (with no inherited workflow
state, or an inherited one satisfying the invariant) and applying any
sequence of engine-shaped operations, the invariant holds after every
prefix — completed step ids are distinct and each is below the current step
— and the current step never decreases from one operation to the next. -/
theorem workflow_invariant_under_operations (d : CustomerData) (now : String)
    (ops : List CustomerOp)
    (hd : ∀ w, d.workflowState = some w → WorkflowInv w)
    (hops : ∀ op ∈ ops, isEngineOp op = true) :
    ∀ n : Nat,
      WorkflowInv (applyOps (Customer.make d now) (ops.take n)).workflowState ∧
      (applyOps (Customer.make d now) (ops.take n)).workflowState.currentStep ≤
        (applyOps (Customer.make d now) (ops.take (n + 1))).workflowState.currentStep := by
  have h0 : WorkflowInv (Customer.make d now).workflowState := by
    cases hw : d.workflowState with
    | none => simp [Customer.make, hw, initialWorkflowState, WorkflowInv]
    | some w => simpa [Customer.make, hw] using hd w hw
  intro n
  have hn : WorkflowInv (applyOps (Customer.make d now) (ops.take n)).workflowState :=
    applyOps_preserves _ _ (fun o ho => hops o (List.take_subset n ops ho)) h0
  refine ⟨hn, ?_⟩
  rw [List.take_succ]
  cases hg : ops[n]? with
  | none => simp [applyOps]
  | some op =>
      have hmem : op ∈ ops := List.getElem?_mem hg
      have := applyOp_preserves (applyOps (Customer.make d now) (ops.take n))
        op (hops op hmem) hn
      simpa [applyOps, List.foldl_append] using this.2

/-- C2 counterexample: `updateWorkflowState`, one of the listed `Customer`
operations, can lower `currentStep` from 2 to 0 on a customer with step 1
completed, so the current step both decreases across an operation and drops
below `max(completed) + 1`. -/
theorem workflow_invariant_counterexample :
    (aliceWith wsDone1).workflowState.currentStep = 2 ∧
    (aliceWith wsDone1).workflowState.completedSteps = [1] ∧
    (applyOp (aliceWith wsDone1)
        (CustomerOp.update lowerCurrentStep)).workflowState.currentStep = 0 := by
  decide

/-- Witness for C2 (amended) on a concrete signup payload and operation
sequence, at prefix length 2. -/
theorem workflow_invariant_under_operations_witness :
    WorkflowInv (applyOps (Customer.make aliceSignup envOk.now)
      (opsW.take 2)).workflowState ∧
    (applyOps (Customer.make aliceSignup envOk.now)
        (opsW.take 2)).workflowState.currentStep ≤
      (applyOps (Customer.make aliceSignup envOk.now)
        (opsW.take 3)).workflowState.currentStep :=
  workflow_invariant_under_operations aliceSignup envOk.now opsW
    (fun w hw => by simp [aliceSignup] at hw) (by decide) 2

/-- C1 (amended).  Steps 2 and 3 are gated by the idempotency check: when
the step id is already in the customer's completed set, handling the
triggering event dispatches no email (step 2: no email printed and nothing
published; step 3: the whole state is unchanged).  Step 1 carries no such
gate — see the counterexample. -/
theorem idempotency_gate_steps_2_3 :
    (∀ (env : Env) (st : EngineState) (v : VisitEvent) (c : Customer),
        mapGet st.customers v.customerId = some c →
        c.isStepCompleted 2 = true →
        (handleProductPageVisit env st v).sentEmails = st.sentEmails ∧
        (handleProductPageVisit env st v).published = st.published) ∧
    (∀ (env : Env) (st : EngineState) (cid : String) (c : Customer),
        mapGet st.customers cid = some c →
        c.isStepCompleted 3 = true →
        handleCustomerInactive env st cid = st) := by
  constructor
  · intro env st v c hget hdone
    have hc : c.workflowState.completedSteps.contains 2 = true := hdone
    simp only [handleProductPageVisit, hget, Customer.isStepCompleted,
      Customer.updateLastActivity, hc]
    constructor
    · rw [(scheduleReminderCheck_fields _ _).2.1,
        (cancelReminderTimer_fields _ _).2.1]
      simp
    · rw [(scheduleReminderCheck_fields _ _).2.2.1,
        (cancelReminderTimer_fields _ _).2.2.1]
      simp
  · intro env st cid c hget hdone
    have hmem : 3 ∈ c.workflowState.completedSteps := by
      have hc : c.workflowState.completedSteps.contains 3 = true := hdone
      simpa using hc
    simp [handleCustomerInactive, hget, Customer.isStepCompleted, hmem]

/-- Witness for C1 (amended): a visit for a customer with step 2 completed
prints no email, and an inactivity event for a customer with step 3
completed leaves the state unchanged. -/
theorem idempotency_gate_steps_2_3_witness :
    (handleProductPageVisit envOk stAlice12 visitP1).sentEmails =
      stAlice12.sentEmails ∧
    handleCustomerInactive envOk stAlice123 aliceId = stAlice123 :=
  ⟨(idempotency_gate_steps_2_3.1 envOk stAlice12 visitP1 (aliceWith wsDone12)
      (by decide) (by decide)).1,
   idempotency_gate_steps_2_3.2 envOk stAlice123 aliceId (aliceWith wsDone123)
      (by decide) (by decide)⟩

/-- C1 counterexample: a repeated signup event for a customer whose
completed set already contains step 1 still dispatches the welcome email —
`handleCustomerSignup` replaces the customer and triggers step 1 with no
idempotency check. -/
theorem signup_gate_counterexample :
    (aliceWith wsDone1).isStepCompleted 1 = true ∧
    mapGet stAlice1.customers aliceId = some (aliceWith wsDone1) ∧
    (handleCustomerSignup envOk stAlice1 aliceSignup).sentEmails =
      [("welcome", aliceId)] := by
  decide

/-- C3 (amended).  For `PRODUCT_PAGE_VISIT` and `CUSTOMER_INACTIVE` events
whose customer id is absent from the registry, the engine logs and discards
the event: the state — registry, timers, logs — is fully unchanged. -/
theorem unknown_customer_discarded :
    (∀ (env : Env) (st : EngineState) (v : VisitEvent),
        mapGet st.customers v.customerId = none →
        handleProductPageVisit env st v = st) ∧
    (∀ (env : Env) (st : EngineState) (cid : String),
        mapGet st.customers cid = none →
        handleCustomerInactive env st cid = st) := by
  constructor
  · intro env st v hget
    simp [handleProductPageVisit, hget]
  · intro env st cid hget
    simp [handleCustomerInactive, hget]

/-- Witness for C3 (amended) at a concrete empty registry. -/
theorem unknown_customer_discarded_witness :
    handleProductPageVisit envOk emptyState visitP1 = emptyState ∧
    handleCustomerInactive envOk emptyState bobId = emptyState :=
  ⟨unknown_customer_discarded.1 envOk emptyState visitP1 (by decide),
   unknown_customer_discarded.2 envOk emptyState bobId (by decide)⟩

/-- C3 counterexample: a `WORKFLOW_STEP` event for an id absent from the
registry is not discarded by `executeWorkflowStep` — it reconstructs the
customer from the event's embedded snapshot, dispatches the welcome email,
and inserts a fresh registry entry. -/
theorem unknown_customer_counterexample :
    mapGet emptyState.customers bobId = none ∧
    (executeWorkflowStep envOk emptyState wdBob).sentEmails =
      [("welcome", bobId)] ∧
    (mapGet (executeWorkflowStep envOk emptyState wdBob).customers
      bobId).isSome = true := by
  decide

/-- C6.  Once step 3 is in the customer's completed set, a firing inactivity
timer publishes nothing (the callback re-validates completion and the timer
identity) and a handled `CUSTOMER_INACTIVE` event dispatches nothing: both
leave the state unchanged. -/
theorem inactivity_revalidates_completion (env : Env) (st : EngineState)
    (cid : String) (c : Customer) (t : Nat)
    (hget : mapGet st.customers cid = some c)
    (hdone : c.isStepCompleted 3 = true) :
    fireReminderTimer env st cid t = st ∧
    handleCustomerInactive env st cid = st := by
  have hmem : 3 ∈ c.workflowState.completedSteps := by
    have hc : c.workflowState.completedSteps.contains 3 = true := hdone
    simpa using hc
  constructor
  · unfold fireReminderTimer
    by_cases ht : mapGet st.timers cid = some t
    · simp [ht, hget, Customer.isStepCompleted, hmem]
    · simp [ht]
  · simp [handleCustomerInactive, hget, Customer.isStepCompleted, hmem]

/-- Witness for C6 at a concrete state with step 3 completed and a timer
armed. -/
theorem inactivity_revalidates_completion_witness :
    fireReminderTimer envOk stAlice123T aliceId 0 = stAlice123T ∧
    handleCustomerInactive envOk stAlice123T aliceId = stAlice123T :=
  inactivity_revalidates_completion envOk stAlice123T aliceId
    (aliceWith wsDone123) 0 (by decide) (by decide)

/-- A failing email dispatch (disconnected bus, or producer send failure)
returns an error with the customer registry and timer table untouched. -/
theorem sendEmailOfType_fail (env : Env) (st : EngineState) (etype : String)
    (cust : CustomerData)
    (h : env.connected = false ∨ env.producerOk st.nextEventId = false) :
    ∃ e st', sendEmailOfType env st etype cust = (st', Except.error e) ∧
      st'.customers = st.customers ∧ st'.timers = st.timers := by
  rcases h with h | h
  · exact ⟨"Event service not connected",
      { st with sentEmails := st.sentEmails ++ [(etype, cust.id)] },
      by simp [sendEmailOfType, publishEvent, h], rfl, rfl⟩
  · by_cases hc : env.connected = false
    · exact ⟨"Event service not connected",
        { st with sentEmails := st.sentEmails ++ [(etype, cust.id)] },
        by simp [sendEmailOfType, publishEvent, hc], rfl, rfl⟩
    · have hc' : env.connected = true := by
        cases hcc : env.connected
        · exact absurd hcc hc
        · rfl
      exact ⟨"Failed to publish event",
        { st with
            sentEmails := st.sentEmails ++ [(etype, cust.id)]
            nextEventId := st.nextEventId + 1 },
        by simp [sendEmailOfType, publishEvent, hc', h], rfl, rfl⟩

/-- C4.  When the notification dispatch fails (unknown action id,
disconnected bus, or failing producer send), the body of
`executeWorkflowStep` throws, and the catching wrapper leaves the step
not-completed: the customer registry — completed sets and idempotency flags
included — and the timer table are exactly as before. -/
theorem failed_dispatch_keeps_step_incomplete (env : Env) (st : EngineState)
    (wd : WorkflowData)
    (h : wd.action ∉ knownWorkflowActions ∨ env.connected = false ∨
      env.producerOk st.nextEventId = false) :
    (∃ e, (executeWorkflowStepBody env st wd).2 = Except.error e) ∧
    (executeWorkflowStep env st wd).customers = st.customers ∧
    (executeWorkflowStep env st wd).timers = st.timers := by
  by_cases h1 : wd.action = "SEND_WELCOME_EMAIL"
  · have hfail : env.connected = false ∨ env.producerOk st.nextEventId = false := by
      rcases h with h | h
      · exact absurd (by rw [h1]; simp [knownWorkflowActions]) h
      · exact h
    cases hget : mapGet st.customers wd.customerId with
    | some c =>
        obtain ⟨e, st', heq, hcust, htim⟩ :=
          sendEmailOfType_fail env st "welcome" c.toJSON hfail
        have hbody : executeWorkflowStepBody env st wd = (st', Except.error e) := by
          simp [executeWorkflowStepBody, hget, h1, sendWelcomeEmail, heq]
        exact ⟨⟨e, by rw [hbody]⟩,
          by simp [executeWorkflowStep, hbody, hcust],
          by simp [executeWorkflowStep, hbody, htim]⟩
    | none =>
        obtain ⟨e, st', heq, hcust, htim⟩ :=
          sendEmailOfType_fail env st "welcome"
            (Customer.make wd.customer env.now).toJSON hfail
        have hbody : executeWorkflowStepBody env st wd = (st', Except.error e) := by
          simp [executeWorkflowStepBody, hget, h1, sendWelcomeEmail, heq]
        exact ⟨⟨e, by rw [hbody]⟩,
          by simp [executeWorkflowStep, hbody, hcust],
          by simp [executeWorkflowStep, hbody, htim]⟩
  · by_cases h2 : wd.action = "SEND_DISCOUNT_EMAIL"
    · have hfail : env.connected = false ∨ env.producerOk st.nextEventId = false := by
        rcases h with h | h
        · exact absurd (by rw [h2]; simp [knownWorkflowActions]) h
        · exact h
      cases hget : mapGet st.customers wd.customerId with
      | some c =>
          obtain ⟨e, st', heq, hcust, htim⟩ :=
            sendEmailOfType_fail env st "discount" c.toJSON hfail
          have hbody : executeWorkflowStepBody env st wd = (st', Except.error e) := by
            simp [executeWorkflowStepBody, hget, h1, h2, sendDiscountEmail, heq]
          exact ⟨⟨e, by rw [hbody]⟩,
            by simp [executeWorkflowStep, hbody, hcust],
            by simp [executeWorkflowStep, hbody, htim]⟩
      | none =>
          obtain ⟨e, st', heq, hcust, htim⟩ :=
            sendEmailOfType_fail env st "discount"
              (Customer.make wd.customer env.now).toJSON hfail
          have hbody : executeWorkflowStepBody env st wd = (st', Except.error e) := by
            simp [executeWorkflowStepBody, hget, h1, h2, sendDiscountEmail, heq]
          exact ⟨⟨e, by rw [hbody]⟩,
            by simp [executeWorkflowStep, hbody, hcust],
            by simp [executeWorkflowStep, hbody, htim]⟩
    · by_cases h3 : wd.action = "SEND_REMINDER_EMAIL"
      · have hfail : env.connected = false ∨ env.producerOk st.nextEventId = false := by
          rcases h with h | h
          · exact absurd (by rw [h3]; simp [knownWorkflowActions]) h
          · exact h
        cases hget : mapGet st.customers wd.customerId with
        | some c =>
            obtain ⟨e, st', heq, hcust, htim⟩ :=
              sendEmailOfType_fail env st "reminder" c.toJSON hfail
            have hbody : executeWorkflowStepBody env st wd = (st', Except.error e) := by
              simp [executeWorkflowStepBody, hget, h1, h2, h3,
                sendReminderEmail, heq]
            exact ⟨⟨e, by rw [hbody]⟩,
              by simp [executeWorkflowStep, hbody, hcust],
              by simp [executeWorkflowStep, hbody, htim]⟩
        | none =>
            obtain ⟨e, st', heq, hcust, htim⟩ :=
              sendEmailOfType_fail env st "reminder"
                (Customer.make wd.customer env.now).toJSON hfail
            have hbody : executeWorkflowStepBody env st wd = (st', Except.error e) := by
              simp [executeWorkflowStepBody, hget, h1, h2, h3,
                sendReminderEmail, heq]
            exact ⟨⟨e, by rw [hbody]⟩,
              by simp [executeWorkflowStep, hbody, hcust],
              by simp [executeWorkflowStep, hbody, htim]⟩
      · refine ⟨⟨"Unknown workflow action: " ++ wd.action, ?_⟩, ?_, ?_⟩
        · simp [executeWorkflowStepBody, h1, h2, h3]
        · simp [executeWorkflowStep, executeWorkflowStepBody, h1, h2, h3]
        · simp [executeWorkflowStep, executeWorkflowStepBody, h1, h2, h3]

/-- Witness for C4: with a disconnected bus, executing the welcome step for
Bob errors internally and leaves registry and timers untouched. -/
theorem failed_dispatch_keeps_step_incomplete_witness :
    (∃ e, (executeWorkflowStepBody envDown emptyState wdBob).2 =
      Except.error e) ∧
    (executeWorkflowStep envDown emptyState wdBob).customers =
      emptyState.customers ∧
    (executeWorkflowStep envDown emptyState wdBob).timers =
      emptyState.timers :=
  failed_dispatch_keeps_step_incomplete envDown emptyState wdBob
    (Or.inr (Or.inl rfl))

/-- The constructor keeps the id of its input data. -/
theorem Customer_make_id (d : CustomerData) (now : String) :
    (Customer.make d now).id = d.id := rfl

/-- With the bus connected and sends succeeding, triggering the welcome step
for a registered customer stores that customer with the welcome flag set and
step 1 marked completed. -/
theorem triggerStep1_customers (env : Env) (st1 : EngineState) (c : Customer)
    (hc : env.connected = true) (hp : ∀ n, env.producerOk n = true)
    (hget : mapGet st1.customers c.id = some c) :
    (triggerWorkflowStep env st1 c workflowSteps.STEP_1_WELCOME none).customers
      = mapSet st1.customers c.id
          ((c.updateWorkflowState
            (engineUpdate (some true) none none (some (some env.now)))).markStepCompleted
            1) := by
  simp [triggerWorkflowStep, publishWorkflowStep, publishEvent, hc, hp,
    executeWorkflowStep, executeWorkflowStepBody, sendWelcomeEmail,
    sendEmailOfType, hget, workflowSteps.STEP_1_WELCOME]

/-- C7.  Handling a signup event (for a payload with no inherited workflow
state) to completion, with the bus connected and every send succeeding,
yields a workflow status for that customer with `completedSteps = [1]`,
`currentStep = 2`, an armed reminder timer, and per-step completion flags
showing step 1 done and steps 2 and 3 not done. -/
theorem signup_roundtrip_status (env : Env) (st : EngineState)
    (d : CustomerData) (hc : env.connected = true)
    (hp : ∀ n, env.producerOk n = true) (hw : d.workflowState = none) :
    (getWorkflowStatus (handleCustomerSignup env st d) d.id).map
        (fun ws => (ws.workflow.completedSteps, ws.workflow.currentStep,
          ws.workflow.hasActiveReminder,
          ws.workflow.steps.map StepStatus.completed)) =
      some ([1], 2, true, [true, false, false]) := by
  have hget1 : mapGet
      (mapSet st.customers (Customer.make d env.now).id (Customer.make d env.now))
      (Customer.make d env.now).id = some (Customer.make d env.now) :=
    mapGet_mapSet_self _ _ _
  have hA := triggerStep1_customers env
    { st with customers :=
        mapSet st.customers (Customer.make d env.now).id (Customer.make d env.now) }
    (Customer.make d env.now) hc hp (by simpa using hget1)
  have hcust5 : mapGet (handleCustomerSignup env st d).customers d.id =
      some (((Customer.make d env.now).updateWorkflowState
        (engineUpdate (some true) none none (some (some env.now)))).markStepCompleted 1) := by
    simp only [handleCustomerSignup]
    rw [(scheduleReminderCheck_fields _ _).1, hA]
    simp only [Customer_make_id]
    exact mapGet_mapSet_self _ _ _
  have htim5 : (mapGet (handleCustomerSignup env st d).timers d.id).isSome = true := by
    simp only [handleCustomerSignup, Customer_make_id]
    rw [scheduleReminderCheck_get]
    rfl
  have hws : (((Customer.make d env.now).updateWorkflowState
      (engineUpdate (some true) none none (some (some env.now)))).markStepCompleted
        1).workflowState =
      { currentStep := 2
        completedSteps := [1]
        welcomeEmailSent := true
        discountCodeSent := false
        reminderSent := false
        lastEmailSent := some env.now } := by
    simp [Customer.make, hw, initialWorkflowState, Customer.updateWorkflowState,
      engineUpdate, Customer.markStepCompleted]
  simp [getWorkflowStatus, hcust5, htim5, mapHas, stepStatusOf,
    Customer.isStepCompleted, hws, workflowSteps.STEP_1_WELCOME,
    workflowSteps.STEP_2_DISCOUNT, workflowSteps.STEP_3_REMINDER]

/-- Witness for C7: the full flow at concrete inputs. -/
theorem signup_roundtrip_status_witness :
    (getWorkflowStatus (handleCustomerSignup envOk emptyState aliceSignup)
        aliceSignup.id).map
        (fun ws => (ws.workflow.completedSteps, ws.workflow.currentStep,
          ws.workflow.hasActiveReminder,
          ws.workflow.steps.map StepStatus.completed)) =
      some ([1], 2, true, [true, false, false]) :=
  signup_roundtrip_status envOk emptyState aliceSignup rfl (fun _ => rfl) rfl

/-- C9.  For a well-formed customer id that is absent from the registry,
every query path returns absent or a `Customer not found` failure response,
and none of them throws: the engine lookup returns `undefined`, the status
view is `null`, and the three service operations return failure responses,
the time-passage simulation leaving the state untouched. -/
theorem unknown_id_query_contract (env : Env) (st : EngineState)
    (cid : String) (hv : (validateCustomerId cid).isValid = true)
    (habs : mapGet st.customers cid = none) :
    getCustomer st cid = none ∧
    getWorkflowStatus st cid = none ∧
    getCustomerById st cid =
      { success := false, message := none,
        error := some "Customer not found", data := none } ∧
    getCustomerWorkflowStatus st cid =
      { success := false, message := none,
        error := some "Customer not found", data := none } ∧
    serviceSimulateTimePassage env st cid =
      (st, { success := false, message := none,
             error := some "Customer not found", data := none }) := by
  refine ⟨?_, ?_, ?_, ?_, ?_⟩
  · simp [getCustomer, habs]
  · simp [getWorkflowStatus, habs]
  · simp [getCustomerById, hv, habs]
  · simp [getCustomerWorkflowStatus, getWorkflowStatus, hv, habs]
  · simp [serviceSimulateTimePassage, hv, habs]

/-- Witness for C9: Bob's id is well-formed and absent from a registry
holding only Alice. -/
theorem unknown_id_query_contract_witness :
    getCustomer stAlice1 bobId = none ∧
    getWorkflowStatus stAlice1 bobId = none ∧
    getCustomerById stAlice1 bobId =
      { success := false, message := none,
        error := some "Customer not found", data := none } ∧
    getCustomerWorkflowStatus stAlice1 bobId =
      { success := false, message := none,
        error := some "Customer not found", data := none } ∧
    serviceSimulateTimePassage envOk stAlice1 bobId =
      (stAlice1, { success := false, message := none,
                   error := some "Customer not found", data := none }) :=
  unknown_id_query_contract envOk stAlice1 bobId (by decide) (by decide)

/-- C10.  A signup event (whose payload, as `createCustomer` builds it,
carries no workflow state, metadata, or activity timestamp) replaces
whatever customer was stored under its id with a freshly constructed one:
the new entry's workflow state starts at the initial state, its metadata is
empty, its activity timestamp is the wall clock, and the handler's whole
result is independent of the discarded previous entry. -/
theorem signup_resets_and_discards (env : Env) (st : EngineState)
    (d : CustomerData) (hw : d.workflowState = none) (hm : d.metadata = none)
    (hl : d.lastActivity = none) :
    (Customer.make d env.now).workflowState = initialWorkflowState ∧
    (Customer.make d env.now).metadata = { lastProductVisit := none } ∧
    (Customer.make d env.now).lastActivity = env.now ∧
    ∀ cOld : Customer,
      handleCustomerSignup env
          { st with customers := mapSet st.customers d.id cOld } d =
        handleCustomerSignup env st d := by
  refine ⟨by simp [Customer.make, hw], by simp [Customer.make, hm],
    by simp [Customer.make, jsOrStr, hl], ?_⟩
  intro cOld
  simp [handleCustomerSignup, Customer_make_id, mapSet_mapSet]

/-- Witness for C10: replacing a fully-completed Alice with a fresh signup
is indistinguishable from signing her up into a registry without her. -/
theorem signup_resets_and_discards_witness :
    (Customer.make aliceSignup envOk.now).workflowState =
      initialWorkflowState ∧
    (Customer.make aliceSignup envOk.now).metadata =
      { lastProductVisit := none } ∧
    (Customer.make aliceSignup envOk.now).lastActivity = envOk.now ∧
    handleCustomerSignup envOk
        { emptyState with
            customers := mapSet emptyState.customers aliceSignup.id
              (aliceWith wsDone123) }
        aliceSignup =
      handleCustomerSignup envOk emptyState aliceSignup :=
  ⟨(signup_resets_and_discards envOk emptyState aliceSignup rfl rfl rfl).1,
   (signup_resets_and_discards envOk emptyState aliceSignup rfl rfl rfl).2.1,
   (signup_resets_and_discards envOk emptyState aliceSignup rfl rfl rfl).2.2.1,
   (signup_resets_and_discards envOk emptyState aliceSignup rfl rfl rfl).2.2.2
     (aliceWith wsDone123)⟩

end AcousticJourney
